import Mathlib

set_option autoImplicit false

/-
Shallow embedding of the crowdin-api client library (two revisions:
src/index.js, called Legacy below, and the unnamed newer revision
src/unnamed/part_001, called Modern below).

Modelling conventions:
  - Parsed JSON values are the inductive Json below.  The runtime
    JSON.parse builtin is not repository code; where the source calls
    JSON.parse we take the parse outcome as an input
    (Option Json, none = the parse threw).
  - JS objects are association lists read right-to-left: a later binding
    shadows an earlier one.  This mirrors both JSON.parse duplicate-key
    semantics and spread override semantics, and property reads
    (lastLookup) always see the latest binding.
  - Node streams and the filesystem are opaque: a read stream created on a
    path is the constructor Val.readStream, a caller-supplied stream is
    Val.stream with an identity; the pipe of a response body into the temp
    file is the disk field of StreamOutput.
-/

namespace Crowdin

/-- Parsed JSON values, as produced by the runtime JSON.parse. -/
inductive Json where
  | null
  | bool (b : Bool)
  | num (n : Int)
  | str (s : String)
  | arr (elems : List Json)
  | obj (fields : List (String × Json))

/-- Property read on an association list: the LAST binding of the key wins,
matching JS object semantics under duplicate keys and spread override. -/
def lastLookup {α : Type} : List (String × α) → String → Option α
  | [], _ => none
  | (k', v) :: rest, k =>
    match lastLookup rest k with
    | some r => some r
    | none => if k' = k then some v else none

/-- JS property access v.k on a parsed JSON value.  The outer none models a
thrown TypeError (the base is null); some none models the undefined value;
primitives and arrays have no such own property and yield undefined. -/
def jsProp : Json → String → Option (Option Json)
  | Json.null, _ => none
  | Json.obj fs, k => some (lastLookup fs k)
  | _, _ => some none

/-- JS property access on a possibly-undefined base (undefined.k throws). -/
def jsPropU : Option Json → String → Option (Option Json)
  | none, _ => none
  | some v, k => jsProp v k

mutual

/-- JS string coercion of a JSON value, as used by string concatenation. -/
def jsToStr : Json → String
  | Json.null => "null"
  | Json.bool true => "true"
  | Json.bool false => "false"
  | Json.num n => toString n
  | Json.str s => s
  | Json.arr xs => jsArrToStr xs
  | Json.obj _ => "[object Object]"

/-- JS Array.prototype.toString: elements joined with commas. -/
def jsArrToStr : List Json → String
  | [] => ""
  | [x] => jsElemToStr x
  | x :: y :: xs => jsElemToStr x ++ "," ++ jsArrToStr (y :: xs)

/-- Inside a join, a null element renders as the empty string. -/
def jsElemToStr : Json → String
  | Json.null => ""
  | v => jsToStr v

end

/-- JS string coercion where the value may be undefined. -/
def jsToStrU : Option Json → String
  | none => "undefined"
  | some v => jsToStr v

/-- resultToError from both revisions: build the Error message
"Error code " + result.error.code + ": " + result.error.message.
Returns none when the JS code would throw a TypeError while reading
result.error.code (that is, when result.error is null or undefined,
or result itself is null). -/
def resultToError (result : Json) : Option String := do
  let e ← jsProp result "error"
  let c ← jsPropU e "code"
  let m ← jsPropU e "message"
  pure ("Error code " ++ jsToStrU c ++ ": " ++ jsToStrU m)

/-- A transport-level failure (network error or non-2xx rejection) from the
HTTP client collaborator.  The tag keeps distinct failures distinguishable;
body is none when err.response or err.response.body is absent (or the body
is the empty, falsy string), some p when a body is present with JSON parse
outcome p (none = JSON.parse threw). -/
structure TransportError where
  tag : Nat
  body : Option (Option Json)

/-- Result of parseError: either the structured service error (with its
message) or the original transport error returned unchanged. -/
inductive CrowdinError where
  | service (message : String)
  | original (err : TransportError)

/-- parseError from both revisions.  Note that resultToError is invoked
inside the same try block as JSON.parse, so a TypeError thrown while
reading parsed.error.code is also caught and yields the original error. -/
def parseError (err : TransportError) : CrowdinError :=
  match err.body with
  | some (some parsed) =>
    match resultToError parsed with
    | some msg => CrowdinError.service msg
    | none => CrowdinError.original err
  | _ => CrowdinError.original err

/-- The ways an operation promise can reject in the embedding. -/
inductive JsThrow where
  | typeError
  | jsonParse
  | service (message : String)
  | transport (err : TransportError)

def throwOfCrowdin : CrowdinError → JsThrow
  | CrowdinError.service m => JsThrow.service m
  | CrowdinError.original e => JsThrow.transport e

/-- Outcome of the awaited HTTP call handed to handlePromise: either the
call resolved with a body (recorded through its JSON parse outcome), or it
rejected with a transport error. -/
inductive PromiseInput where
  | resolved (parsed : Option Json)
  | rejected (err : TransportError)

inductive PromiseResult where
  | ok (v : Json)
  | err (e : JsThrow)

/-- handlePromise from both revisions: a rejected call is rethrown through
parseError; a resolved body is JSON.parsed (a parse failure propagates the
raw parse exception); a parsed result with success strictly equal to the
boolean false is thrown through resultToError (whose own TypeError, if any,
propagates uncaught); anything else resolves with the parsed result. -/
def handlePromise (input : PromiseInput) : PromiseResult :=
  match input with
  | PromiseInput.rejected err => PromiseResult.err (throwOfCrowdin (parseError err))
  | PromiseInput.resolved none => PromiseResult.err JsThrow.jsonParse
  | PromiseInput.resolved (some result) =>
    match jsProp result "success" with
    | none => PromiseResult.err JsThrow.typeError
    | some s =>
      match s with
      | some (Json.bool false) =>
        match resultToError result with
        | some msg => PromiseResult.err (JsThrow.service msg)
        | none => PromiseResult.err JsThrow.typeError
      | _ => PromiseResult.ok result

/-- Events written to the console on the stream error-recovery path. -/
inductive LogEvent where
  | parseLogged
  | readLogged

inductive StreamOutcome where
  | resolvedPath (p : String)
  | rejectedErr (e : JsThrow)
  | rejectedMsg (s : String)

/-- Observable result of handleStream: the bytes left in the temp file, the
single settlement of the returned promise, and the console log events. -/
structure StreamOutput where
  disk : List Nat
  outcome : StreamOutcome
  logs : List LogEvent

/-- The template-literal rejection string of the generic streaming error. -/
def streamingMsg (status : Int) : String :=
  "Error streaming from Crowdin: " ++ toString status

/-- Input to handleStream: either the request emitted an error event before
completing, or a response arrived with a status code and a body (the bytes
subsequently piped into the temp file). -/
inductive StreamInput where
  | networkError (err : TransportError)
  | response (statusCode : Int) (body : List Nat)

/-- handleStream from both revisions.  tempPath is the freshly acquired
temp file; readBack models, for the recovery path only, the outcome of
fs.readFile on the temp file followed by JSON.parse of its text
(none = the read itself failed; some none = the text did not parse;
some (some v) = it parsed to v).  On a response, the body is piped to the
temp file; on close, a status below 400 resolves with the path, otherwise
the error is reconstructed from the file: a successful resultToError gives
the structured rejection, while a read failure or a parse or TypeError
failure is logged and the promise is rejected with the generic
streaming-error string. -/
def handleStream (tempPath : String) (input : StreamInput)
    (readBack : Option (Option Json)) : StreamOutput :=
  match input with
  | StreamInput.networkError err =>
    { disk := [],
      outcome := StreamOutcome.rejectedErr (throwOfCrowdin (parseError err)),
      logs := [] }
  | StreamInput.response status body =>
    if status < 400 then
      { disk := body, outcome := StreamOutcome.resolvedPath tempPath, logs := [] }
    else
      match readBack with
      | none =>
        { disk := body,
          outcome := StreamOutcome.rejectedMsg (streamingMsg status),
          logs := [LogEvent.readLogged] }
      | some none =>
        { disk := body,
          outcome := StreamOutcome.rejectedMsg (streamingMsg status),
          logs := [LogEvent.parseLogged] }
      | some (some parsed) =>
        match resultToError parsed with
        | some msg =>
          { disk := body,
            outcome := StreamOutcome.rejectedErr (JsThrow.service msg),
            logs := [] }
        | none =>
          { disk := body,
            outcome := StreamOutcome.rejectedMsg (streamingMsg status),
            logs := [LogEvent.parseLogged] }

/-- Values appearing in query strings and multipart form data. -/
inductive Val where
  | vjson (j : Json)
  | readStream (path : String)
  | stream (id : Nat)

def vstr (s : String) : Val := Val.vjson (Json.str s)

def vtrue : Val := Val.vjson (Json.bool true)

/-- A content source in a File Set: either a local file path (a string) or
an already-open stream. -/
inductive Source where
  | pathStr (p : String)
  | stream (id : Nat)

/-- The per-entry value transformation of packFiles: a string value is
replaced by a read stream opened on that path, a stream passes through. -/
def packOne : Source → Val
  | Source.pathStr p => Val.readStream p
  | Source.stream i => Val.stream i

/-- The multipart field name convention of packFiles. -/
def filesField (crowdinPath : String) : String := "files[" ++ crowdinPath ++ "]"

/-- packFiles from both revisions: a reduce over the entries of the File
Set object, assigning acc[files[path]] = value.  Keys of a JS object are
unique and filesField is injective, so each assignment adds a fresh field;
in the association-list model it appends a binding.  No file-existence
validation is performed. -/
def packFiles (files : List (String × Source)) : List (String × Val) :=
  files.foldl (fun acc kv => acc ++ [(filesField kv.1, packOne kv.2)]) []

inductive Method where
  | get
  | post

/-- Which response normalizer the operation routes through. -/
inductive Handler where
  | promise
  | streamed

/-- The single outbound HTTP request assembled by an operation method. -/
structure Request where
  method : Method
  handler : Handler
  uri : String
  qs : List (String × Val)
  formData : Option (List (String × Val))

namespace Modern

/-- Constructor options of the newer revision (src/unnamed/part_001). -/
structure Options where
  baseUrl : Option String
  apiKey : Option String
  login : Option String
  accountKey : Option String
  projectName : Option String

/-- JS truthiness of an optional string option (absent or empty is falsy). -/
def truthy : Option String → Bool
  | none => false
  | some s => s != ""

/-- The constructed client of the newer revision: configuration only. -/
structure CrowdinApi where
  baseUrl : String
  apiKey : Option String
  projectName : String
  credentials : List (String × Val)

/-- The constructor of the newer revision.  accountCredentials is the
truthiness of login && accountKey, projectCredentials that of apiKey; if
the two coincide (neither or both credential forms) construction throws,
then a falsy projectName throws; otherwise the client holds the base URL,
the project identifier and the credential query fields.  The embedding is
a pure function into configuration: no Request value is produced, matching
the source constructor which performs no HTTP call. -/
def make (o : Options) : Except String CrowdinApi :=
  let accountCredentials := truthy o.login && truthy o.accountKey
  let projectCredentials := truthy o.apiKey
  if projectCredentials == accountCredentials then
    Except.error "Please specify CrowdIn credentials with login and accountKey options. If you have a legacy key from the project settings page then pass just the apiKey setting."
  else if !truthy o.projectName then
    Except.error "Please specify CrowdIn project."
  else
    Except.ok
      { baseUrl := o.baseUrl.getD "https://api.crowdin.com"
        apiKey := o.apiKey
        projectName := o.projectName.getD ""
        credentials :=
          if projectCredentials then
            [("key", vstr (o.apiKey.getD ""))]
          else
            [("login", vstr (o.login.getD "")),
             ("account-key", vstr (o.accountKey.getD ""))] }

def uri (c : CrowdinApi) (path : String) : String :=
  c.baseUrl ++ "/api/" ++ path

/-- getPromise: a GET with query string \x7b json: true, ...credentials \x7d
routed through handlePromise.  The source signature takes only the path;
a second argument passed by a caller is silently dropped. -/
def getPromise (c : CrowdinApi) (path : String) : Request :=
  { method := Method.get, handler := Handler.promise, uri := uri c path,
    qs := [("json", vtrue)] ++ c.credentials,
    formData := none }

/-- postPromise: a POST with query string
\x7b ...qs, json: true, ...credentials \x7d and the given form data. -/
def postPromise (c : CrowdinApi) (path : String) (qs : List (String × Val))
    (data : Option (List (String × Val))) : Request :=
  { method := Method.post, handler := Handler.promise, uri := uri c path,
    qs := qs ++ [("json", vtrue)] ++ c.credentials,
    formData := data }

/-- getStream: a GET with query string
\x7b ...qs, json: true, ...credentials \x7d routed through handleStream. -/
def getStream (c : CrowdinApi) (path : String) (qs : List (String × Val)) :
    Request :=
  { method := Method.get, handler := Handler.streamed, uri := uri c path,
    qs := qs ++ [("json", vtrue)] ++ c.credentials,
    formData := none }

def addFile (c : CrowdinApi) (files : List (String × Source))
    (params : List (String × Val)) : Request :=
  postPromise c ("project/" ++ c.projectName ++ "/add-file") []
    (some (packFiles files ++ params))

def updateFile (c : CrowdinApi) (files : List (String × Source))
    (params : List (String × Val)) : Request :=
  postPromise c ("project/" ++ c.projectName ++ "/update-file") []
    (some (packFiles files ++ params))

def deleteFile (c : CrowdinApi) (fileName : String) : Request :=
  postPromise c ("project/" ++ c.projectName ++ "/delete-file") []
    (some [("file", vstr fileName)])

/-- updateTranslations of the newer revision: the language argument is
appended to the form data as a shorthand property after the spreads. -/
def updateTranslations (c : CrowdinApi) (files : List (String × Source))
    (language : String) (params : List (String × Val)) : Request :=
  postPromise c ("project/" ++ c.projectName ++ "/upload-translation") []
    (some (packFiles files ++ params ++ [("language", vstr language)]))

def translationStatus (c : CrowdinApi) : Request :=
  postPromise c ("project/" ++ c.projectName ++ "/status") [] none

def languageStatus (c : CrowdinApi) (language : String) : Request :=
  postPromise c ("project/" ++ c.projectName ++ "/language-status") []
    (some [("language", vstr language)])

def projectInfo (c : CrowdinApi) : Request :=
  postPromise c ("project/" ++ c.projectName ++ "/info") [] none

/-- reportedIssues posts to the language-status path (not an
issues-specific endpoint path). -/
def reportedIssues (c : CrowdinApi) (params : List (String × Val)) :
    Request :=
  postPromise c ("project/" ++ c.projectName ++ "/language-status") []
    (some params)

def exportFile (c : CrowdinApi) (file : String) (language : String)
    (params : List (String × Val)) : Request :=
  getStream c ("project/" ++ c.projectName ++ "/export-file")
    (params ++ [("file", vstr file), ("language", vstr language)])

def downloadTranslations (c : CrowdinApi) (languageCode : String) :
    Request :=
  getStream c
    ("project/" ++ c.projectName ++ "/download/" ++ languageCode ++ ".zip") []

def downloadAllTranslations (c : CrowdinApi) : Request :=
  getStream c ("project/" ++ c.projectName ++ "/download/all.zip") []

def exportTranslations (c : CrowdinApi) : Request :=
  getPromise c ("project/" ++ c.projectName ++ "/export")

/-- The branch argument is passed to getPromise, whose signature takes only
the path, so it is dropped, as in the source. -/
def translationExportStatus (c : CrowdinApi) (branch : String) : Request :=
  let _ := branch
  getPromise c ("project/" ++ c.projectName ++ "/export-status")

def preTranslate (c : CrowdinApi) (languages : Val) (files : Val)
    (params : List (String × Val)) : Request :=
  postPromise c ("project/" ++ c.projectName ++ "/pre-translate") []
    (some (params ++ [("languages", languages), ("files", files)]))

def editProject (c : CrowdinApi) (params : List (String × Val)) : Request :=
  postPromise c ("project/" ++ c.projectName ++ "/edit-project") []
    (some params)

def deleteProject (c : CrowdinApi) : Request :=
  postPromise c ("project/" ++ c.projectName ++ "/delete-project") [] none

def createDirectory (c : CrowdinApi) (directory : String)
    (params : List (String × Val)) : Request :=
  postPromise c ("project/" ++ c.projectName ++ "/add-directory") params
    (some [("name", vstr directory)])

def changeDirectory (c : CrowdinApi) (directory : String)
    (params : List (String × Val)) : Request :=
  postPromise c ("project/" ++ c.projectName ++ "/change-directory") params
    (some [("name", vstr directory)])

def deleteDirectory (c : CrowdinApi) (directory : String) : Request :=
  postPromise c ("project/" ++ c.projectName ++ "/delete-directory") []
    (some [("name", vstr directory)])

def downloadGlossary (c : CrowdinApi) : Request :=
  getStream c ("project/" ++ c.projectName ++ "/download-glossary") []

def uploadGlossary (c : CrowdinApi) (fileNameOrStream : Source) : Request :=
  postPromise c ("project/" ++ c.projectName ++ "/upload-glossary") []
    (some [("file", packOne fileNameOrStream)])

def downloadTranslationMemory (c : CrowdinApi) : Request :=
  postPromise c ("project/" ++ c.projectName ++ "/download-tm") [] none

def uploadTranslationMemory (c : CrowdinApi) (fileNameOrStream : Source) :
    Request :=
  postPromise c ("project/" ++ c.projectName ++ "/upload-tm") []
    (some [("file", packOne fileNameOrStream)])

def supportedLanguages (c : CrowdinApi) : Request :=
  getPromise c "supported-languages"

/-- The params argument is passed to getPromise, whose signature takes only
the path, so it is dropped, as in the source. -/
def pseudoExport (c : CrowdinApi) (params : List (String × Val)) : Request :=
  let _ := params
  getPromise c ("project/" ++ c.projectName ++ "/pseudo-export")

def pseudoDownload (c : CrowdinApi) : Request :=
  getStream c ("project/" ++ c.projectName ++ "/pseudo-download") []

def exportCostsEstimationReport (c : CrowdinApi) (language : String)
    (params : List (String × Val)) : Request :=
  postPromise c
    ("project/" ++ c.projectName ++ "/reports/costs-estimation/export") []
    (some (params ++ [("language", vstr language)]))

def downloadCostsEstimationReport (c : CrowdinApi) (hash : String) :
    Request :=
  getStream c
    ("project/" ++ c.projectName ++ "/reports/costs-estimation/download")
    [("hash", vstr hash)]

def exportTranslationCostsReport (c : CrowdinApi)
    (params : List (String × Val)) : Request :=
  postPromise c
    ("project/" ++ c.projectName ++ "/reports/translation-costs/export") []
    (some params)

def downloadTranslationCostsReport (c : CrowdinApi) (hash : String) :
    Request :=
  getStream c
    ("project/" ++ c.projectName ++ "/reports/translation-costs/download")
    [("hash", vstr hash)]

def exportTopMembersReport (c : CrowdinApi)
    (params : List (String × Val)) : Request :=
  postPromise c
    ("project/" ++ c.projectName ++ "/reports/top-members/export") []
    (some params)

def downloadTopMembersReport (c : CrowdinApi) (hash : String) : Request :=
  getStream c
    ("project/" ++ c.projectName ++ "/reports/top-members/download")
    [("hash", vstr hash)]

end Modern

namespace Legacy

/-- Constructor options of the legacy revision (src/index.js). -/
structure Options where
  baseUrl : Option String
  apiKey : Option String

/-- The constructed client of the legacy revision: configuration only. -/
structure CrowdinApi where
  baseUrl : String
  apiKey : String

/-- The legacy constructor: stores the base URL and key and throws when the
key is falsy.  As in the newer revision, the embedding is a pure function
into configuration: no HTTP call is modelled because none occurs. -/
def make (o : Options) : Except String CrowdinApi :=
  if !Modern.truthy o.apiKey then
    Except.error "Please specify CrowdIn API key."
  else
    Except.ok
      { baseUrl := o.baseUrl.getD "https://api.crowdin.com"
        apiKey := o.apiKey.getD "" }

def uri (c : CrowdinApi) (path : String) : String :=
  c.baseUrl ++ "/api/" ++ path

/-- Legacy getPromise: query string \x7b json: true, key: apiKey \x7d. -/
def getPromise (c : CrowdinApi) (path : String) : Request :=
  { method := Method.get, handler := Handler.promise, uri := uri c path,
    qs := [("json", vtrue), ("key", vstr c.apiKey)],
    formData := none }

/-- Legacy postPromise: query string
\x7b ...qs, json: true, key: apiKey \x7d plus the form data. -/
def postPromise (c : CrowdinApi) (path : String) (qs : List (String × Val))
    (data : Option (List (String × Val))) : Request :=
  { method := Method.post, handler := Handler.promise, uri := uri c path,
    qs := qs ++ [("json", vtrue)] ++ [("key", vstr c.apiKey)],
    formData := data }

/-- Legacy getStream: query string
\x7b ...qs, json: true, key: apiKey \x7d. -/
def getStream (c : CrowdinApi) (path : String) (qs : List (String × Val)) :
    Request :=
  { method := Method.get, handler := Handler.streamed, uri := uri c path,
    qs := qs ++ [("json", vtrue)] ++ [("key", vstr c.apiKey)],
    formData := none }

def addFile (c : CrowdinApi) (projectName : String)
    (files : List (String × Source)) (params : List (String × Val)) :
    Request :=
  postPromise c ("project/" ++ projectName ++ "/add-file") []
    (some (packFiles files ++ params))

def updateFile (c : CrowdinApi) (projectName : String)
    (files : List (String × Source)) (params : List (String × Val)) :
    Request :=
  postPromise c ("project/" ++ projectName ++ "/update-file") []
    (some (packFiles files ++ params))

def deleteFile (c : CrowdinApi) (projectName : String) (fileName : String) :
    Request :=
  postPromise c ("project/" ++ projectName ++ "/delete-file") []
    (some [("file", vstr fileName)])

/-- updateTranslations of the legacy revision: the language argument is
accepted but never placed in the form data, which is assembled from the
packed files and params alone. -/
def updateTranslations (c : CrowdinApi) (projectName : String)
    (files : List (String × Source)) (language : String)
    (params : List (String × Val)) : Request :=
  let _ := language
  postPromise c ("project/" ++ projectName ++ "/upload-translation") []
    (some (packFiles files ++ params))

def translationStatus (c : CrowdinApi) (projectName : String) : Request :=
  postPromise c ("project/" ++ projectName ++ "/status") [] none

def languageStatus (c : CrowdinApi) (projectName : String)
    (language : String) : Request :=
  postPromise c ("project/" ++ projectName ++ "/language-status") []
    (some [("language", vstr language)])

def projectInfo (c : CrowdinApi) (projectName : String) : Request :=
  postPromise c ("project/" ++ projectName ++ "/info") [] none

/-- Legacy reportedIssues also posts to the language-status path. -/
def reportedIssues (c : CrowdinApi) (projectName : String)
    (params : List (String × Val)) : Request :=
  postPromise c ("project/" ++ projectName ++ "/language-status") []
    (some params)

def exportFile (c : CrowdinApi) (projectName : String) (file : String)
    (language : String) (params : List (String × Val)) : Request :=
  getStream c ("project/" ++ projectName ++ "/export-file")
    (params ++ [("file", vstr file), ("language", vstr language)])

def downloadTranslations (c : CrowdinApi) (projectName : String)
    (languageCode : String) : Request :=
  getStream c
    ("project/" ++ projectName ++ "/download/" ++ languageCode ++ ".zip") []

def downloadAllTranslations (c : CrowdinApi) (projectName : String) :
    Request :=
  getStream c ("project/" ++ projectName ++ "/download/all.zip") []

def exportTranslations (c : CrowdinApi) (projectName : String) : Request :=
  getPromise c ("project/" ++ projectName ++ "/export")

/-- The branch argument is dropped by the single-parameter getPromise. -/
def translationExportStatus (c : CrowdinApi) (projectName : String)
    (branch : String) : Request :=
  let _ := branch
  getPromise c ("project/" ++ projectName ++ "/export-status")

def preTranslate (c : CrowdinApi) (projectName : String) (languages : Val)
    (files : Val) (params : List (String × Val)) : Request :=
  postPromise c ("project/" ++ projectName ++ "/pre-translate") []
    (some (params ++ [("languages", languages), ("files", files)]))

def editProject (c : CrowdinApi) (projectName : String)
    (params : List (String × Val)) : Request :=
  postPromise c ("project/" ++ projectName ++ "/edit-project") []
    (some params)

def deleteProject (c : CrowdinApi) (projectName : String) : Request :=
  postPromise c ("project/" ++ projectName ++ "/delete-project") [] none

def createDirectory (c : CrowdinApi) (projectName : String)
    (directory : String) (params : List (String × Val)) : Request :=
  postPromise c ("project/" ++ projectName ++ "/add-directory") params
    (some [("name", vstr directory)])

def changeDirectory (c : CrowdinApi) (projectName : String)
    (directory : String) (params : List (String × Val)) : Request :=
  postPromise c ("project/" ++ projectName ++ "/change-directory") params
    (some [("name", vstr directory)])

def deleteDirectory (c : CrowdinApi) (projectName : String)
    (directory : String) : Request :=
  postPromise c ("project/" ++ projectName ++ "/delete-directory") []
    (some [("name", vstr directory)])

def downloadGlossary (c : CrowdinApi) (projectName : String) : Request :=
  getStream c ("project/" ++ projectName ++ "/download-glossary") []

def uploadGlossary (c : CrowdinApi) (projectName : String)
    (fileNameOrStream : Source) : Request :=
  postPromise c ("project/" ++ projectName ++ "/upload-glossary") []
    (some [("file", packOne fileNameOrStream)])

def downloadTranslationMemory (c : CrowdinApi) (projectName : String) :
    Request :=
  postPromise c ("project/" ++ projectName ++ "/download-tm") [] none

def uploadTranslationMemory (c : CrowdinApi) (projectName : String)
    (fileNameOrStream : Source) : Request :=
  postPromise c ("project/" ++ projectName ++ "/upload-tm") []
    (some [("file", packOne fileNameOrStream)])

def supportedLanguages (c : CrowdinApi) : Request :=
  getPromise c "supported-languages"

/-- The params argument is dropped by the single-parameter getPromise. -/
def pseudoExport (c : CrowdinApi) (projectName : String)
    (params : List (String × Val)) : Request :=
  let _ := params
  getPromise c ("project/" ++ projectName ++ "/pseudo-export")

def pseudoDownload (c : CrowdinApi) (projectName : String) : Request :=
  getStream c ("project/" ++ projectName ++ "/pseudo-download") []

/-- The legacy revision passes params alone; its language argument is not
used in the form data. -/
def exportCostsEstimationReport (c : CrowdinApi) (projectName : String)
    (language : String) (params : List (String × Val)) : Request :=
  let _ := language
  postPromise c
    ("project/" ++ projectName ++ "/reports/costs-estimation/export") []
    (some params)

def downloadCostsEstimationReport (c : CrowdinApi) (projectName : String)
    (hash : String) : Request :=
  getStream c
    ("project/" ++ projectName ++ "/reports/costs-estimation/download")
    [("hash", vstr hash)]

def exportTranslationCostsReport (c : CrowdinApi) (projectName : String)
    (params : List (String × Val)) : Request :=
  postPromise c
    ("project/" ++ projectName ++ "/reports/translation-costs/export") []
    (some params)

def downloadTranslationCostsReport (c : CrowdinApi) (projectName : String)
    (hash : String) : Request :=
  getStream c
    ("project/" ++ projectName ++ "/reports/translation-costs/download")
    [("hash", vstr hash)]

def exportTopMembersReport (c : CrowdinApi) (projectName : String)
    (params : List (String × Val)) : Request :=
  postPromise c
    ("project/" ++ projectName ++ "/reports/top-members/export") []
    (some params)

def downloadTopMembersReport (c : CrowdinApi) (projectName : String)
    (hash : String) : Request :=
  getStream c
    ("project/" ++ projectName ++ "/reports/top-members/download")
    [("hash", vstr hash)]

end Legacy

/-! Derived predicates and helper lemmas. -/

/-- Whether the parsed result has a success field strictly equal to the
boolean false, the condition tested by handlePromise. -/
def successIsFalse (fs : List (String × Json)) : Bool :=
  match lastLookup fs "success" with
  | some (Json.bool false) => true
  | _ => false

/-- Whether building the structured error from a parsed value succeeds:
reading value.error.code only throws when value.error is null or undefined
(or value itself is null), so the value must be an object whose error field
is present and non-null. -/
def errAccessible : Json → Bool
  | Json.obj fs =>
    match lastLookup fs "error" with
    | some Json.null => false
    | some _ => true
    | none => false
  | _ => false

/-- The message of the structured service error built from a parsed value;
meaningful when errAccessible holds. -/
def serviceMessage (v : Json) : String :=
  match v with
  | Json.obj fs =>
    match lastLookup fs "error" with
    | some e =>
      "Error code " ++ jsToStrU (jsProp e "code").join ++ ": " ++
        jsToStrU (jsProp e "message").join
    | none => ""
  | _ => ""

/-- Bool discriminator: is this the original transport error? -/
def isOriginalErr : CrowdinError → Bool
  | CrowdinError.original _ => true
  | _ => false

/-- Bool discriminator: did the promise reject with a structured service
error (one carrying an embedded code and message)? -/
def isServiceThrow : PromiseResult → Bool
  | PromiseResult.err (JsThrow.service _) => true
  | _ => false

theorem lastLookup_append_some {α : Type} {b : List (String × α)}
    {k : String} {v : α} (a : List (String × α))
    (h : lastLookup b k = some v) : lastLookup (a ++ b) k = some v := by
  induction a with
  | nil => simpa using h
  | cons hd tl ih =>
    obtain ⟨k', v'⟩ := hd
    simp only [List.cons_append, lastLookup, List.append_eq, ih]

theorem lastLookup_append_none {α : Type} {b : List (String × α)}
    {k : String} (a : List (String × α)) (h : lastLookup b k = none) :
    lastLookup (a ++ b) k = lastLookup a k := by
  induction a with
  | nil => simpa using h
  | cons hd tl ih =>
    obtain ⟨k', v'⟩ := hd
    simp only [List.cons_append, lastLookup, List.append_eq, ih]

theorem resultToError_of_accessible (v : Json) (h : errAccessible v = true) :
    resultToError v = some (serviceMessage v) := by
  cases v with
  | obj fs =>
    simp only [errAccessible] at h
    cases he : lastLookup fs "error" with
    | none => rw [he] at h; simp at h
    | some e =>
      rw [he] at h
      cases e <;>
        simp_all [resultToError, serviceMessage, jsProp, jsPropU, he,
          Option.bind, Option.join]
  | null => simp [errAccessible] at h
  | bool b => simp [errAccessible] at h
  | num n => simp [errAccessible] at h
  | str s => simp [errAccessible] at h
  | arr xs => simp [errAccessible] at h

theorem resultToError_of_inaccessible (v : Json)
    (h : errAccessible v = false) : resultToError v = none := by
  cases v with
  | obj fs =>
    simp only [errAccessible] at h
    cases he : lastLookup fs "error" with
    | none => simp [resultToError, jsProp, jsPropU, he, Option.bind]
    | some e =>
      rw [he] at h
      cases e <;>
        simp_all [resultToError, jsProp, jsPropU, he, Option.bind]
  | null => simp [resultToError, jsProp, Option.bind]
  | bool b => simp [resultToError, jsProp, jsPropU, Option.bind]
  | num n => simp [resultToError, jsProp, jsPropU, Option.bind]
  | str s => simp [resultToError, jsProp, jsPropU, Option.bind]
  | arr xs => simp [resultToError, jsProp, jsPropU, Option.bind]

/-- The query string carries the JSON-response flag and every credential
field, reading fields by the shadowing lookup. -/
def injectsAuth (creds : List (String × Val))
    (qs : List (String × Val)) : Prop :=
  lastLookup qs "json" = some vtrue ∧
  ∀ k v, lastLookup creds k = some v → lastLookup qs k = some v

theorem injectsAuth_qs (creds qs0 : List (String × Val))
    (h : lastLookup creds "json" = none) :
    injectsAuth creds (qs0 ++ [("json", vtrue)] ++ creds) := by
  constructor
  · rw [lastLookup_append_none _ h]
    exact lastLookup_append_some qs0 rfl
  · intro k v hkv
    exact lastLookup_append_some _ hkv

theorem make_credentials (o : Modern.Options) (c : Modern.CrowdinApi)
    (h : Modern.make o = Except.ok c) :
    c.credentials = [("key", vstr (o.apiKey.getD ""))] ∨
    c.credentials = [("login", vstr (o.login.getD "")),
      ("account-key", vstr (o.accountKey.getD ""))] := by
  simp only [Modern.make] at h
  split at h
  · exact absurd h (by simp)
  · split at h
    · exact absurd h (by simp)
    · simp only [Except.ok.injEq] at h
      subst h
      by_cases hp : Modern.truthy o.apiKey = true
      · left; simp [hp]
      · right; simp [hp]

theorem successIsFalse_iff (fs : List (String × Json)) :
    successIsFalse fs = true ↔
      lastLookup fs "success" = some (Json.bool false) := by
  unfold successIsFalse
  cases h : lastLookup fs "success" with
  | none => simp
  | some v =>
    cases v with
    | null => simp
    | bool b => cases b <;> simp
    | num n => simp
    | str s => simp
    | arr xs => simp
    | obj gs => simp

theorem packFiles_eq_map (files : List (String × Source)) :
    packFiles files =
      files.map (fun kv => (filesField kv.1, packOne kv.2)) := by
  have h : ∀ acc : List (String × Val),
      files.foldl (fun acc kv => acc ++ [(filesField kv.1, packOne kv.2)])
          acc
        = acc ++ files.map (fun kv => (filesField kv.1, packOne kv.2)) := by
    induction files with
    | nil => intro acc; simp
    | cons hd tl ih =>
      intro acc
      simp [List.foldl_cons, ih, List.append_assoc]
  simpa [packFiles] using h []

theorem filesField_injective : Function.Injective filesField := by
  intro a b h
  have hd : ("files[" ++ a ++ "]").data = ("files[" ++ b ++ "]").data :=
    congrArg String.data h
  simp only [String.data_append] at hd
  exact String.ext (List.append_cancel_left (List.append_cancel_right hd))

theorem filesField_ne_language (k : String) : filesField k ≠ "language" := by
  intro h
  have hd : (filesField k).data = "language".data := congrArg String.data h
  simp only [filesField, String.data_append] at hd
  simp at hd

theorem lastLookup_packFiles_language (files : List (String × Source)) :
    lastLookup (packFiles files) "language" = none := by
  rw [packFiles_eq_map]
  induction files with
  | nil => rfl
  | cons hd tl ih =>
    obtain ⟨k, v⟩ := hd
    simp only [List.map_cons, lastLookup, ih,
      if_neg (filesField_ne_language k)]

/-! Concrete fixtures used by witnesses and counterexamples. -/

def modernOpts0 : Modern.Options :=
  { baseUrl := none, apiKey := some "k", login := none, accountKey := none,
    projectName := some "p" }

def modernClient0 : Modern.CrowdinApi :=
  { baseUrl := "https://api.crowdin.com", apiKey := some "k",
    projectName := "p", credentials := [("key", vstr "k")] }

def legacyClient0 : Legacy.CrowdinApi :=
  { baseUrl := "https://api.crowdin.com", apiKey := "k" }

/-- A failure body that is valid JSON with an error object but without a
success field. -/
def errShapedBody : Json :=
  Json.obj [("error",
    Json.obj [("code", Json.str "X"), ("message", Json.str "Y")])]

def transport0 : TransportError := { tag := 7, body := some (some errShapedBody) }

/-- A failure body in the full documented shape
with success false and an error object carrying code and message. -/
def fullErrBody : Json :=
  Json.obj [("success", Json.bool false),
    ("error", Json.obj [("code", Json.str "3"),
      ("message", Json.str "API key is not valid")])]

def transport1 : TransportError := { tag := 3, body := some (some fullErrBody) }

def files0 : List (String × Source) :=
  [("a/b.txt", Source.pathStr "/tmp/x"), ("c.md", Source.stream 5)]

def fs1 : List (String × Json) :=
  [("success", Json.bool false),
   ("error", Json.obj [("code", Json.str "X"), ("message", Json.str "Y")])]

theorem serviceMessage_fs1 :
    serviceMessage (Json.obj fs1) = "Error code X: Y" := by
  simp [serviceMessage, fs1, lastLookup, jsProp, jsToStrU, jsToStr,
    Option.join]

theorem serviceMessage_errShapedBody :
    serviceMessage errShapedBody = "Error code X: Y" := by
  simp [serviceMessage, errShapedBody, lastLookup, jsProp, jsToStrU,
    jsToStr, Option.join]

theorem serviceMessage_fullErrBody :
    serviceMessage fullErrBody = "Error code 3: API key is not valid" := by
  simp [serviceMessage, fullErrBody, lastLookup, jsProp, jsToStrU, jsToStr,
    Option.join]

/-! Claim theorems. -/

/-- C1, counterexample: the body with fields success: false and nothing
else parses as a JSON object whose success field equals the boolean false,
yet the promise normalizer rejects with a TypeError (reading .code of the
undefined error field), not with an error embedding an error code and an
error message — so the claimed equivalence fails at this input. -/
theorem success_false_without_error_rejects_type_error :
    handlePromise (PromiseInput.resolved
        (some (Json.obj [("success", Json.bool false)])))
      = PromiseResult.err JsThrow.typeError
    ∧ successIsFalse [("success", Json.bool false)] = true
    ∧ isServiceThrow (handlePromise (PromiseInput.resolved
        (some (Json.obj [("success", Json.bool false)])))) = false :=
  ⟨rfl, rfl, rfl⟩

/-- C1, amended: for a response body that parses as a JSON object, the
promise normalizer resolves with the parsed object unchanged exactly when
the success field does not equal the boolean false; when it does, the
operation fails with the structured error embedding the code and message
read through the error field when that field is accessible, and otherwise
fails with a TypeError.  All promise-based operation methods route their
response through this normalizer. -/
theorem promise_normalizer_success_flag (fs : List (String × Json)) :
    (handlePromise (PromiseInput.resolved (some (Json.obj fs)))
        = PromiseResult.ok (Json.obj fs) ↔ successIsFalse fs = false)
    ∧ (successIsFalse fs = true → errAccessible (Json.obj fs) = true →
        handlePromise (PromiseInput.resolved (some (Json.obj fs)))
          = PromiseResult.err
              (JsThrow.service (serviceMessage (Json.obj fs))))
    ∧ (successIsFalse fs = true → errAccessible (Json.obj fs) = false →
        handlePromise (PromiseInput.resolved (some (Json.obj fs)))
          = PromiseResult.err JsThrow.typeError) := by
  refine ⟨?_, ?_, ?_⟩
  · simp only [handlePromise, jsProp, successIsFalse]
    cases hs : lastLookup fs "success" with
    | none => simp
    | some v =>
      cases v with
      | null => simp
      | bool b =>
        cases b
        · cases hr : resultToError (Json.obj fs) <;> simp [hr]
        · simp
      | num n => simp
      | str s => simp
      | arr xs => simp
      | obj gs => simp
  · intro hs ha
    have hl := (successIsFalse_iff fs).1 hs
    simp [handlePromise, jsProp, hl, resultToError_of_accessible _ ha]
  · intro hs ha
    have hl := (successIsFalse_iff fs).1 hs
    simp [handlePromise, jsProp, hl, resultToError_of_inaccessible _ ha]

/-- C1, witness: a body with success false and a well-formed error object
fails with the structured message embedding the code X and the message Y. -/
theorem promise_normalizer_success_flag_witness :
    handlePromise (PromiseInput.resolved (some (Json.obj fs1)))
      = PromiseResult.err (JsThrow.service "Error code X: Y") := by
  have h := (promise_normalizer_success_flag fs1).2.1 rfl rfl
  rwa [serviceMessage_fs1] at h

/-- C8: a resolved call whose body fails to parse as JSON rejects with the
raw parse exception: it neither resolves nor produces a structured service
error.  All promise-based operation methods route through handlePromise. -/
theorem invalid_json_rejects_with_parse_exception :
    handlePromise (PromiseInput.resolved none)
      = PromiseResult.err JsThrow.jsonParse
    ∧ isServiceThrow (handlePromise (PromiseInput.resolved none)) = false :=
  ⟨rfl, rfl⟩

/-- C4, counterexample: a transport failure whose body is valid JSON with
an error object but WITHOUT the success field is converted by parseError
into the structured service error, while the claim requires the original
transport error to surface for any body not matching the full
success-false shape. -/
theorem transport_error_masked_without_success_flag :
    parseError transport0 = CrowdinError.service "Error code X: Y"
    ∧ isOriginalErr (parseError transport0) = false
    ∧ successIsFalse [("error", Json.obj [("code", Json.str "X"),
        ("message", Json.str "Y")])] = false := by
  refine ⟨?_, rfl, rfl⟩
  have h : parseError transport0
      = CrowdinError.service (serviceMessage errShapedBody) := by
    simp [parseError, transport0,
      resultToError_of_accessible errShapedBody rfl]
  rwa [serviceMessage_errShapedBody] at h

/-- C4, amended: on a transport-level failure carrying a body, the library
raises the structured service error exactly when the body parses as JSON
to a value whose error field is accessible (an object with a present,
non-null error field); the success field is not consulted.  Otherwise —
no body, an unparseable body, or a parsed value without an accessible
error field — the original transport error is propagated unchanged. -/
theorem parse_error_structured_iff_error_accessible
    (err : TransportError) :
    (∀ v, err.body = some (some v) → errAccessible v = true →
        parseError err = CrowdinError.service (serviceMessage v))
    ∧ (∀ v, err.body = some (some v) → errAccessible v = false →
        parseError err = CrowdinError.original err)
    ∧ (err.body = some none → parseError err = CrowdinError.original err)
    ∧ (err.body = none → parseError err = CrowdinError.original err) := by
  refine ⟨?_, ?_, ?_, ?_⟩
  · intro v hv ha
    simp [parseError, hv, resultToError_of_accessible _ ha]
  · intro v hv ha
    simp [parseError, hv, resultToError_of_inaccessible _ ha]
  · intro hv; simp [parseError, hv]
  · intro hv; simp [parseError, hv]

/-- C4, witness: a body in the full documented failure shape raises the
structured error with its code and message embedded. -/
theorem parse_error_structured_iff_error_accessible_witness :
    parseError transport1
      = CrowdinError.service "Error code 3: API key is not valid" := by
  have h := (parse_error_structured_iff_error_accessible transport1).1
    fullErrBody rfl rfl
  rwa [serviceMessage_fullErrBody] at h

/-- C5: construction of the newer-revision client succeeds exactly when
exactly one credential form is supplied (a truthy legacy apiKey, or a
truthy login together with a truthy accountKey, but not both forms)
together with a truthy project identifier; otherwise it fails
synchronously.  The constructor is embedded as a pure function into
configuration: no request value exists at construction, mirroring the
source constructor which performs no HTTP call. -/
theorem construction_validation (o : Modern.Options) :
    (Modern.make o).toOption.isSome =
      ((Modern.truthy o.apiKey
          != (Modern.truthy o.login && Modern.truthy o.accountKey))
        && Modern.truthy o.projectName) := by
  cases hA : Modern.truthy o.apiKey <;>
    cases hAcc : Modern.truthy o.login && Modern.truthy o.accountKey <;>
      cases hP : Modern.truthy o.projectName <;>
        simp [Modern.make, hA, hAcc, hP, Except.toOption]

/-- C7: a streaming download whose response status code is below 400
resolves with the path of the freshly acquired temp file, the bytes left
on disk are exactly the response body bytes, and nothing is logged; the
file is left in place for the caller (the embedding performs no delete,
as the source performs none). -/
theorem stream_success_roundtrip (tempPath : String) (status : Int)
    (body : List Nat) (readBack : Option (Option Json))
    (h : status < 400) :
    handleStream tempPath (StreamInput.response status body) readBack
      = { disk := body, outcome := StreamOutcome.resolvedPath tempPath,
          logs := [] } := by
  simp [handleStream, h]

/-- C7, witness: a status-200 download of the bytes 80 75 3 4 leaves
exactly those bytes on disk and resolves with the temp path. -/
theorem stream_success_roundtrip_witness :
    handleStream "/tmp/crowdin-1" (StreamInput.response 200 [80, 75, 3, 4])
        none
      = { disk := [80, 75, 3, 4],
          outcome := StreamOutcome.resolvedPath "/tmp/crowdin-1",
          logs := [] } :=
  stream_success_roundtrip "/tmp/crowdin-1" 200 [80, 75, 3, 4] none
    (by decide)

/-- C3: for a streaming download whose status code is at least 400, after
the body has been written to the temp file: a re-read body parsing to a
value with an accessible error object rejects with the structured error
embedding its code and message; a body that does not parse rejects with
the generic streaming-error string after logging the parse failure; a
parsed body from which no structured error can be built does the same; a
failed re-read logs the read failure and likewise rejects with the
generic string.  In every branch the outcome is a single rejection, and
the generic string embeds the status code. -/
theorem stream_error_recovery (tempPath : String) (status : Int)
    (body : List Nat) (readBack : Option (Option Json))
    (h : 400 ≤ status) :
    (∀ v, readBack = some (some v) → errAccessible v = true →
        handleStream tempPath (StreamInput.response status body) readBack
          = { disk := body,
              outcome := StreamOutcome.rejectedErr
                (JsThrow.service (serviceMessage v)),
              logs := [] })
    ∧ (readBack = some none →
        handleStream tempPath (StreamInput.response status body) readBack
          = { disk := body,
              outcome := StreamOutcome.rejectedMsg (streamingMsg status),
              logs := [LogEvent.parseLogged] })
    ∧ (∀ v, readBack = some (some v) → errAccessible v = false →
        handleStream tempPath (StreamInput.response status body) readBack
          = { disk := body,
              outcome := StreamOutcome.rejectedMsg (streamingMsg status),
              logs := [LogEvent.parseLogged] })
    ∧ (readBack = none →
        handleStream tempPath (StreamInput.response status body) readBack
          = { disk := body,
              outcome := StreamOutcome.rejectedMsg (streamingMsg status),
              logs := [LogEvent.readLogged] })
    ∧ streamingMsg status
        = "Error streaming from Crowdin: " ++ toString status := by
  have hlt : ¬ status < 400 := not_lt.mpr h
  refine ⟨?_, ?_, ?_, ?_, rfl⟩
  · intro v hv ha
    subst hv
    simp [handleStream, hlt, resultToError_of_accessible v ha]
  · intro hv
    subst hv
    simp [handleStream, hlt]
  · intro v hv ha
    subst hv
    simp [handleStream, hlt, resultToError_of_inaccessible v ha]
  · intro hv
    subst hv
    simp [handleStream, hlt]

/-- C3, witness: a 404 download whose temp file re-reads as the full
failure shape rejects with the structured error embedding the code 3 and
its message, with nothing logged. -/
theorem stream_error_recovery_witness :
    handleStream "/tmp/crowdin-2" (StreamInput.response 404 [1])
        (some (some fullErrBody))
      = { disk := [1],
          outcome := StreamOutcome.rejectedErr
            (JsThrow.service "Error code 3: API key is not valid"),
          logs := [] } := by
  have h := (stream_error_recovery "/tmp/crowdin-2" 404 [1]
    (some (some fullErrBody)) (by decide)).1 fullErrBody rfl rfl
  rwa [serviceMessage_fullErrBody] at h

/-- C6: packing a File Set with distinct logical paths yields exactly one
form field per entry, named files[path] and carrying the read stream of a
string value or the unchanged caller stream; nothing else is produced,
field names are pairwise distinct, and the embedding performs no
file-existence check because the source performs none. -/
theorem pack_files_fields (files : List (String × Source))
    (h : (files.map Prod.fst).Nodup) :
    packFiles files = files.map (fun kv => (filesField kv.1, packOne kv.2))
    ∧ ((packFiles files).map Prod.fst).Nodup := by
  refine ⟨packFiles_eq_map files, ?_⟩
  rw [packFiles_eq_map]
  have he : (files.map
      (fun kv => (filesField kv.1, packOne kv.2))).map Prod.fst
      = (files.map Prod.fst).map filesField := by
    simp [List.map_map]
  rw [he]
  exact h.map filesField_injective

/-- C6, witness: a two-entry File Set with a path value and a stream value
packs to exactly the two expected fields. -/
theorem pack_files_fields_witness :
    packFiles files0
      = [("files[a/b.txt]", Val.readStream "/tmp/x"),
         ("files[c.md]", Val.stream 5)] := by
  have h := (pack_files_fields files0 (by decide)).1
  rw [h]
  simp [files0, filesField, packOne]

/-- C9: the legacy revision accepts but drops the language argument of
updateTranslations (the assembled request is independent of it, and the
form data gains no language field when params has none), while the newer
revision always appends a language field carrying the argument; at a
concrete input the two assembled form-data objects differ. -/
theorem update_translations_revisions_differ :
    (∀ (c : Legacy.CrowdinApi) (pn : String)
        (files : List (String × Source)) (l1 l2 : String)
        (params : List (String × Val)),
        Legacy.updateTranslations c pn files l1 params
          = Legacy.updateTranslations c pn files l2 params)
    ∧ (∀ (c : Legacy.CrowdinApi) (pn : String)
        (files : List (String × Source)) (lang : String)
        (params : List (String × Val)) (d : List (String × Val)),
        lastLookup params "language" = none →
        (Legacy.updateTranslations c pn files lang params).formData
          = some d →
        lastLookup d "language" = none)
    ∧ (∀ (c : Modern.CrowdinApi) (files : List (String × Source))
        (lang : String) (params : List (String × Val))
        (d : List (String × Val)),
        (Modern.updateTranslations c files lang params).formData = some d →
        lastLookup d "language" = some (vstr lang))
    ∧ (Legacy.updateTranslations legacyClient0 "p" [] "fr" []).formData
        = some []
    ∧ (Modern.updateTranslations modernClient0 [] "fr" []).formData
        = some [("language", vstr "fr")] := by
  refine ⟨fun _ _ _ _ _ _ => rfl, ?_, ?_, rfl, rfl⟩
  · intro c pn files lang params d hp hd
    have hd' : packFiles files ++ params = d := by
      simpa [Legacy.updateTranslations, Legacy.postPromise] using hd
    subst hd'
    rw [lastLookup_append_none _ hp]
    exact lastLookup_packFiles_language files
  · intro c files lang params d hd
    have hd' : packFiles files ++ params ++ [("language", vstr lang)] = d := by
      simpa [Modern.updateTranslations, Modern.postPromise] using hd
    subst hd'
    exact lastLookup_append_some _ rfl

/-- C9, witness: the newer revision's form data carries the language
field with the language argument. -/
theorem update_translations_revisions_differ_witness :
    lastLookup [("language", vstr "fr")] "language" = some (vstr "fr") :=
  update_translations_revisions_differ.2.2.1 modernClient0 [] "fr" []
    [("language", vstr "fr")] rfl

/-- C10: in both revisions, reportedIssues issues its POST to the path
project/(project identifier)/language-status — the same endpoint path as
languageStatus — for every params input, rather than to an issues-specific
path. -/
theorem reported_issues_uses_language_status_path
    (cM : Modern.CrowdinApi) (cL : Legacy.CrowdinApi) (pn lang : String)
    (pM pL : List (String × Val)) :
    (Modern.reportedIssues cM pM).uri = (Modern.languageStatus cM lang).uri
    ∧ (Modern.reportedIssues cM pM).uri
        = cM.baseUrl ++ "/api/"
          ++ ("project/" ++ cM.projectName ++ "/language-status")
    ∧ (Legacy.reportedIssues cL pn pL).uri
        = (Legacy.languageStatus cL pn lang).uri
    ∧ (Legacy.reportedIssues cL pn pL).uri
        = cL.baseUrl ++ "/api/"
          ++ ("project/" ++ pn ++ "/language-status") :=
  ⟨rfl, rfl, rfl, rfl⟩

/-- C2: every operation method of both revisions — promise-based,
form-posting and streaming alike — issues a single request whose query
string carries json mapped to true together with every credential field of
the client (key for the legacy form, login and account-key for the
account form), for every path, query-parameter and form-data input; a
constructed client of the newer revision holds exactly one of the two
credential forms. -/
theorem every_request_carries_json_flag_and_credentials
    (o : Modern.Options) (c : Modern.CrowdinApi)
    (h : Modern.make o = Except.ok c) (cL : Legacy.CrowdinApi) :
    (∀ path, injectsAuth c.credentials (Modern.getPromise c path).qs)
    ∧ (∀ path qs d,
        injectsAuth c.credentials (Modern.postPromise c path qs d).qs)
    ∧ (∀ path qs, injectsAuth c.credentials (Modern.getStream c path qs).qs)
    ∧ (c.credentials = [("key", vstr (o.apiKey.getD ""))]
        ∨ c.credentials = [("login", vstr (o.login.getD "")),
            ("account-key", vstr (o.accountKey.getD ""))])
    ∧ (∀ files params,
        injectsAuth c.credentials (Modern.addFile c files params).qs)
    ∧ (∀ files params,
        injectsAuth c.credentials (Modern.updateFile c files params).qs)
    ∧ (∀ fileName,
        injectsAuth c.credentials (Modern.deleteFile c fileName).qs)
    ∧ (∀ files lang params, injectsAuth c.credentials
        (Modern.updateTranslations c files lang params).qs)
    ∧ injectsAuth c.credentials (Modern.translationStatus c).qs
    ∧ (∀ lang,
        injectsAuth c.credentials (Modern.languageStatus c lang).qs)
    ∧ injectsAuth c.credentials (Modern.projectInfo c).qs
    ∧ (∀ params,
        injectsAuth c.credentials (Modern.reportedIssues c params).qs)
    ∧ (∀ file lang params, injectsAuth c.credentials
        (Modern.exportFile c file lang params).qs)
    ∧ (∀ lc, injectsAuth c.credentials
        (Modern.downloadTranslations c lc).qs)
    ∧ injectsAuth c.credentials (Modern.downloadAllTranslations c).qs
    ∧ injectsAuth c.credentials (Modern.exportTranslations c).qs
    ∧ (∀ branch, injectsAuth c.credentials
        (Modern.translationExportStatus c branch).qs)
    ∧ (∀ langs fs params, injectsAuth c.credentials
        (Modern.preTranslate c langs fs params).qs)
    ∧ (∀ params,
        injectsAuth c.credentials (Modern.editProject c params).qs)
    ∧ injectsAuth c.credentials (Modern.deleteProject c).qs
    ∧ (∀ dir params, injectsAuth c.credentials
        (Modern.createDirectory c dir params).qs)
    ∧ (∀ dir params, injectsAuth c.credentials
        (Modern.changeDirectory c dir params).qs)
    ∧ (∀ dir,
        injectsAuth c.credentials (Modern.deleteDirectory c dir).qs)
    ∧ injectsAuth c.credentials (Modern.downloadGlossary c).qs
    ∧ (∀ f, injectsAuth c.credentials (Modern.uploadGlossary c f).qs)
    ∧ injectsAuth c.credentials (Modern.downloadTranslationMemory c).qs
    ∧ (∀ f, injectsAuth c.credentials
        (Modern.uploadTranslationMemory c f).qs)
    ∧ injectsAuth c.credentials (Modern.supportedLanguages c).qs
    ∧ (∀ params,
        injectsAuth c.credentials (Modern.pseudoExport c params).qs)
    ∧ injectsAuth c.credentials (Modern.pseudoDownload c).qs
    ∧ (∀ lang params, injectsAuth c.credentials
        (Modern.exportCostsEstimationReport c lang params).qs)
    ∧ (∀ hash, injectsAuth c.credentials
        (Modern.downloadCostsEstimationReport c hash).qs)
    ∧ (∀ params, injectsAuth c.credentials
        (Modern.exportTranslationCostsReport c params).qs)
    ∧ (∀ hash, injectsAuth c.credentials
        (Modern.downloadTranslationCostsReport c hash).qs)
    ∧ (∀ params, injectsAuth c.credentials
        (Modern.exportTopMembersReport c params).qs)
    ∧ (∀ hash, injectsAuth c.credentials
        (Modern.downloadTopMembersReport c hash).qs)
    ∧ (∀ path, injectsAuth [("key", vstr cL.apiKey)]
        (Legacy.getPromise cL path).qs)
    ∧ (∀ path qs d, injectsAuth [("key", vstr cL.apiKey)]
        (Legacy.postPromise cL path qs d).qs)
    ∧ (∀ path qs, injectsAuth [("key", vstr cL.apiKey)]
        (Legacy.getStream cL path qs).qs)
    ∧ (∀ pn files params, injectsAuth [("key", vstr cL.apiKey)]
        (Legacy.addFile cL pn files params).qs)
    ∧ (∀ pn files params, injectsAuth [("key", vstr cL.apiKey)]
        (Legacy.updateFile cL pn files params).qs)
    ∧ (∀ pn fileName, injectsAuth [("key", vstr cL.apiKey)]
        (Legacy.deleteFile cL pn fileName).qs)
    ∧ (∀ pn files lang params, injectsAuth [("key", vstr cL.apiKey)]
        (Legacy.updateTranslations cL pn files lang params).qs)
    ∧ (∀ pn, injectsAuth [("key", vstr cL.apiKey)]
        (Legacy.translationStatus cL pn).qs)
    ∧ (∀ pn lang, injectsAuth [("key", vstr cL.apiKey)]
        (Legacy.languageStatus cL pn lang).qs)
    ∧ (∀ pn, injectsAuth [("key", vstr cL.apiKey)]
        (Legacy.projectInfo cL pn).qs)
    ∧ (∀ pn params, injectsAuth [("key", vstr cL.apiKey)]
        (Legacy.reportedIssues cL pn params).qs)
    ∧ (∀ pn file lang params, injectsAuth [("key", vstr cL.apiKey)]
        (Legacy.exportFile cL pn file lang params).qs)
    ∧ (∀ pn lc, injectsAuth [("key", vstr cL.apiKey)]
        (Legacy.downloadTranslations cL pn lc).qs)
    ∧ (∀ pn, injectsAuth [("key", vstr cL.apiKey)]
        (Legacy.downloadAllTranslations cL pn).qs)
    ∧ (∀ pn, injectsAuth [("key", vstr cL.apiKey)]
        (Legacy.exportTranslations cL pn).qs)
    ∧ (∀ pn branch, injectsAuth [("key", vstr cL.apiKey)]
        (Legacy.translationExportStatus cL pn branch).qs)
    ∧ (∀ pn langs fs params, injectsAuth [("key", vstr cL.apiKey)]
        (Legacy.preTranslate cL pn langs fs params).qs)
    ∧ (∀ pn params, injectsAuth [("key", vstr cL.apiKey)]
        (Legacy.editProject cL pn params).qs)
    ∧ (∀ pn, injectsAuth [("key", vstr cL.apiKey)]
        (Legacy.deleteProject cL pn).qs)
    ∧ (∀ pn dir params, injectsAuth [("key", vstr cL.apiKey)]
        (Legacy.createDirectory cL pn dir params).qs)
    ∧ (∀ pn dir params, injectsAuth [("key", vstr cL.apiKey)]
        (Legacy.changeDirectory cL pn dir params).qs)
    ∧ (∀ pn dir, injectsAuth [("key", vstr cL.apiKey)]
        (Legacy.deleteDirectory cL pn dir).qs)
    ∧ (∀ pn, injectsAuth [("key", vstr cL.apiKey)]
        (Legacy.downloadGlossary cL pn).qs)
    ∧ (∀ pn f, injectsAuth [("key", vstr cL.apiKey)]
        (Legacy.uploadGlossary cL pn f).qs)
    ∧ (∀ pn, injectsAuth [("key", vstr cL.apiKey)]
        (Legacy.downloadTranslationMemory cL pn).qs)
    ∧ (∀ pn f, injectsAuth [("key", vstr cL.apiKey)]
        (Legacy.uploadTranslationMemory cL pn f).qs)
    ∧ injectsAuth [("key", vstr cL.apiKey)]
        (Legacy.supportedLanguages cL).qs
    ∧ (∀ pn params, injectsAuth [("key", vstr cL.apiKey)]
        (Legacy.pseudoExport cL pn params).qs)
    ∧ (∀ pn, injectsAuth [("key", vstr cL.apiKey)]
        (Legacy.pseudoDownload cL pn).qs)
    ∧ (∀ pn lang params, injectsAuth [("key", vstr cL.apiKey)]
        (Legacy.exportCostsEstimationReport cL pn lang params).qs)
    ∧ (∀ pn hash, injectsAuth [("key", vstr cL.apiKey)]
        (Legacy.downloadCostsEstimationReport cL pn hash).qs)
    ∧ (∀ pn params, injectsAuth [("key", vstr cL.apiKey)]
        (Legacy.exportTranslationCostsReport cL pn params).qs)
    ∧ (∀ pn hash, injectsAuth [("key", vstr cL.apiKey)]
        (Legacy.downloadTranslationCostsReport cL pn hash).qs)
    ∧ (∀ pn params, injectsAuth [("key", vstr cL.apiKey)]
        (Legacy.exportTopMembersReport cL pn params).qs)
    ∧ (∀ pn hash, injectsAuth [("key", vstr cL.apiKey)]
        (Legacy.downloadTopMembersReport cL pn hash).qs) := by
  have hshape := make_credentials o c h
  have hjson : lastLookup c.credentials "json" = none := by
    rcases hshape with h1 | h1 <;> rw [h1] <;> rfl
  have hjL : lastLookup [("key", vstr cL.apiKey)] "json" = none := rfl
  have hgp : ∀ path, injectsAuth c.credentials (Modern.getPromise c path).qs :=
    fun _ => injectsAuth_qs c.credentials [] hjson
  have hpp : ∀ path qs d,
      injectsAuth c.credentials (Modern.postPromise c path qs d).qs :=
    fun _ qs _ => injectsAuth_qs c.credentials qs hjson
  have hgs : ∀ path qs,
      injectsAuth c.credentials (Modern.getStream c path qs).qs :=
    fun _ qs => injectsAuth_qs c.credentials qs hjson
  have hgpL : ∀ path,
      injectsAuth [("key", vstr cL.apiKey)] (Legacy.getPromise cL path).qs :=
    fun _ => injectsAuth_qs [("key", vstr cL.apiKey)] [] hjL
  have hppL : ∀ path qs d,
      injectsAuth [("key", vstr cL.apiKey)]
        (Legacy.postPromise cL path qs d).qs :=
    fun _ qs _ => injectsAuth_qs [("key", vstr cL.apiKey)] qs hjL
  have hgsL : ∀ path qs,
      injectsAuth [("key", vstr cL.apiKey)]
        (Legacy.getStream cL path qs).qs :=
    fun _ qs => injectsAuth_qs [("key", vstr cL.apiKey)] qs hjL
  exact ⟨hgp, hpp, hgs, hshape,
    fun _ _ => hpp _ _ _, fun _ _ => hpp _ _ _, fun _ => hpp _ _ _,
    fun _ _ _ => hpp _ _ _, hpp _ _ _, fun _ => hpp _ _ _, hpp _ _ _,
    fun _ => hpp _ _ _, fun _ _ _ => hgs _ _, fun _ => hgs _ _,
    hgs _ _, hgp _, fun _ => hgp _, fun _ _ _ => hpp _ _ _,
    fun _ => hpp _ _ _, hpp _ _ _, fun _ _ => hpp _ _ _,
    fun _ _ => hpp _ _ _, fun _ => hpp _ _ _, hgs _ _,
    fun _ => hpp _ _ _, hpp _ _ _, fun _ => hpp _ _ _, hgp _,
    fun _ => hgp _, hgs _ _, fun _ _ => hpp _ _ _, fun _ => hgs _ _,
    fun _ => hpp _ _ _, fun _ => hgs _ _, fun _ => hpp _ _ _,
    fun _ => hgs _ _,
    hgpL, hppL, hgsL,
    fun _ _ _ => hppL _ _ _, fun _ _ _ => hppL _ _ _,
    fun _ _ => hppL _ _ _, fun _ _ _ _ => hppL _ _ _,
    fun _ => hppL _ _ _, fun _ _ => hppL _ _ _, fun _ => hppL _ _ _,
    fun _ _ => hppL _ _ _, fun _ _ _ _ => hgsL _ _,
    fun _ _ => hgsL _ _, fun _ => hgsL _ _, fun _ => hgpL _,
    fun _ _ => hgpL _, fun _ _ _ _ => hppL _ _ _,
    fun _ _ => hppL _ _ _, fun _ => hppL _ _ _,
    fun _ _ _ => hppL _ _ _, fun _ _ _ => hppL _ _ _,
    fun _ _ => hppL _ _ _, fun _ => hgsL _ _, fun _ _ => hppL _ _ _,
    fun _ => hppL _ _ _, fun _ _ => hppL _ _ _, hgpL _,
    fun _ _ => hgpL _, fun _ => hgsL _ _, fun _ _ _ => hppL _ _ _,
    fun _ _ => hgsL _ _, fun _ _ => hppL _ _ _, fun _ _ => hgsL _ _,
    fun _ _ => hppL _ _ _, fun _ _ => hgsL _ _⟩

/-- C2, witness: for a concrete client constructed with the legacy apiKey
form, a concrete getPromise request carries json mapped to true and key
mapped to the apiKey. -/
theorem every_request_carries_json_flag_and_credentials_witness :
    lastLookup (Modern.getPromise modernClient0 "supported-languages").qs
        "json" = some vtrue
    ∧ lastLookup (Modern.getPromise modernClient0 "supported-languages").qs
        "key" = some (vstr "k") := by
  have h := (every_request_carries_json_flag_and_credentials modernOpts0
    modernClient0 rfl legacyClient0).1 "supported-languages"
  exact ⟨h.1, h.2 "key" (vstr "k") rfl⟩

end Crowdin
